/-
Verification of the tapkee dimensionality-reduction core against its design
specification.  The definitions below are a shallow embedding of
src/tapkee/tapkee_defines.hpp: the parameter/method/backend enumerations, the
cover-tree base property, and the projection abstraction.  Components whose
implementation lives outside the visible fragment (the eigensolver backends and
the concrete projecting implementations) are modelled from the specification
text; each such definition says so in its doc comment.
-/
import Mathlib

set_option maxHeartbeats 1000000

namespace Tapkee

/-- Scalar type of the source (DefaultScalarType, i.e. double), modelled as an
exact rational. -/
abbrev DefaultScalarType := ℚ

/-- Dense vector type (DenseVector), modelled as a list of scalars. -/
abbrev DenseVector := List DefaultScalarType

/-- Enum TAPKEE_PARAMETERS from tapkee_defines.hpp, one constructor per
enumerator, in source order. -/
inductive TAPKEE_PARAMETERS
  | REDUCTION_METHOD
  | NUMBER_OF_NEIGHBORS
  | TARGET_DIMENSION
  | CURRENT_DIMENSION
  | EIGEN_EMBEDDING_METHOD
  | NEIGHBORS_METHOD
  | DIFFUSION_MAP_TIMESTEPS
  | GAUSSIAN_KERNEL_WIDTH
  | MAX_ITERATION
  | SPE_GLOBAL_STRATEGY
  | SPE_TOLERANCE
  | SPE_NUM_UPDATES
  | LANDMARK_RATIO
  | EIGENSHIFT
  deriving DecidableEq, Fintype, Repr

/-- Enum TAPKEE_METHOD from tapkee_defines.hpp, one constructor per enumerator,
in source order. -/
inductive TAPKEE_METHOD
  | KERNEL_LOCALLY_LINEAR_EMBEDDING
  | NEIGHBORHOOD_PRESERVING_EMBEDDING
  | KERNEL_LOCAL_TANGENT_SPACE_ALIGNMENT
  | LINEAR_LOCAL_TANGENT_SPACE_ALIGNMENT
  | HESSIAN_LOCALLY_LINEAR_EMBEDDING
  | LAPLACIAN_EIGENMAPS
  | LOCALITY_PRESERVING_PROJECTIONS
  | DIFFUSION_MAP
  | ISOMAP
  | LANDMARK_ISOMAP
  | MULTIDIMENSIONAL_SCALING
  | LANDMARK_MULTIDIMENSIONAL_SCALING
  | STOCHASTIC_PROXIMITY_EMBEDDING
  | KERNEL_PCA
  | PCA
  | UNKNOWN_METHOD
  deriving DecidableEq, Fintype, Repr

/-- Enum TAPKEE_NEIGHBORS_METHOD from tapkee_defines.hpp. -/
inductive TAPKEE_NEIGHBORS_METHOD
  | BRUTE_FORCE
  | COVER_TREE
  | UNKNOWN_NEIGHBORS_METHOD
  deriving DecidableEq, Fintype, Repr

/-- Enum TAPKEE_EIGEN_EMBEDDING_METHOD from tapkee_defines.hpp. -/
inductive TAPKEE_EIGEN_EMBEDDING_METHOD
  | ARPACK
  | RANDOMIZED
  | EIGEN_DENSE_SELFADJOINT_SOLVER
  | UNKNOWN_EIGEN_METHOD
  deriving DecidableEq, Fintype, Repr

/-- Dynamically-typed parameter value (the any type of utils/any.hpp), one
variant per value type the TAPKEE_PARAMETERS comments document. -/
inductive AnyValue
  | ofMethod : TAPKEE_METHOD → AnyValue
  | ofNeighborsMethod : TAPKEE_NEIGHBORS_METHOD → AnyValue
  | ofEigenMethod : TAPKEE_EIGEN_EMBEDDING_METHOD → AnyValue
  | ofUnsignedInt : Nat → AnyValue
  | ofScalar : DefaultScalarType → AnyValue
  | ofBool : Bool → AnyValue

/-- ParametersMap from tapkee_defines.hpp: a map from the parameter enumeration
to a dynamically-typed value, modelled as a partial function. -/
def ParametersMap := TAPKEE_PARAMETERS → Option AnyValue

/-- Option keys the specification lists for the ParametersMap, one constructor
per item of the listed enumeration in the data-model section. -/
inductive SpecOptionKey
  | method
  | neighborCount
  | targetDimension
  | eigenEmbeddingBackend
  | neighborSearchBackend
  | diffusionTimeSteps
  | kernelWidth
  | maxIterations
  | landmarkRatioKey
  | eigenvalueShift
  | speTolerance
  | speUpdateCount
  | speGlobalStrategyFlag
  deriving DecidableEq, Fintype, Repr

/-- Correspondence between each spec-listed option key and the source
enumerator that realizes it. -/
def specOptionKeyToParameter : SpecOptionKey → TAPKEE_PARAMETERS
  | .method => TAPKEE_PARAMETERS.REDUCTION_METHOD
  | .neighborCount => TAPKEE_PARAMETERS.NUMBER_OF_NEIGHBORS
  | .targetDimension => TAPKEE_PARAMETERS.TARGET_DIMENSION
  | .eigenEmbeddingBackend => TAPKEE_PARAMETERS.EIGEN_EMBEDDING_METHOD
  | .neighborSearchBackend => TAPKEE_PARAMETERS.NEIGHBORS_METHOD
  | .diffusionTimeSteps => TAPKEE_PARAMETERS.DIFFUSION_MAP_TIMESTEPS
  | .kernelWidth => TAPKEE_PARAMETERS.GAUSSIAN_KERNEL_WIDTH
  | .maxIterations => TAPKEE_PARAMETERS.MAX_ITERATION
  | .landmarkRatioKey => TAPKEE_PARAMETERS.LANDMARK_RATIO
  | .eigenvalueShift => TAPKEE_PARAMETERS.EIGENSHIFT
  | .speTolerance => TAPKEE_PARAMETERS.SPE_TOLERANCE
  | .speUpdateCount => TAPKEE_PARAMETERS.SPE_NUM_UPDATES
  | .speGlobalStrategyFlag => TAPKEE_PARAMETERS.SPE_GLOBAL_STRATEGY

/-- Algorithms the specification lists for the reduction Method enumeration,
one constructor per listed algorithm. -/
inductive SpecAlgorithm
  | lle
  | ltsa
  | hessianLLE
  | laplacianEigenmaps
  | localityPreservingProjections
  | diffusionMaps
  | isomap
  | landmarkIsomap
  | mds
  | landmarkMDS
  | stochasticProximityEmbedding
  | pca
  | kernelPCA
  deriving DecidableEq, Fintype, Repr

/-- Correspondence between each spec-listed algorithm and the source enumerator
that realizes it (the kernelized enumerators subsume the plain LLE and LTSA
variants, per their doc comments in the source). -/
def specAlgorithmToMethod : SpecAlgorithm → TAPKEE_METHOD
  | .lle => TAPKEE_METHOD.KERNEL_LOCALLY_LINEAR_EMBEDDING
  | .ltsa => TAPKEE_METHOD.KERNEL_LOCAL_TANGENT_SPACE_ALIGNMENT
  | .hessianLLE => TAPKEE_METHOD.HESSIAN_LOCALLY_LINEAR_EMBEDDING
  | .laplacianEigenmaps => TAPKEE_METHOD.LAPLACIAN_EIGENMAPS
  | .localityPreservingProjections => TAPKEE_METHOD.LOCALITY_PRESERVING_PROJECTIONS
  | .diffusionMaps => TAPKEE_METHOD.DIFFUSION_MAP
  | .isomap => TAPKEE_METHOD.ISOMAP
  | .landmarkIsomap => TAPKEE_METHOD.LANDMARK_ISOMAP
  | .mds => TAPKEE_METHOD.MULTIDIMENSIONAL_SCALING
  | .landmarkMDS => TAPKEE_METHOD.LANDMARK_MULTIDIMENSIONAL_SCALING
  | .stochasticProximityEmbedding => TAPKEE_METHOD.STOCHASTIC_PROXIMITY_EMBEDDING
  | .pca => TAPKEE_METHOD.PCA
  | .kernelPCA => TAPKEE_METHOD.KERNEL_PCA

/-- Members of enum TAPKEE_METHOD in source order. -/
def reductionMethodMembers : List TAPKEE_METHOD :=
  [TAPKEE_METHOD.KERNEL_LOCALLY_LINEAR_EMBEDDING,
   TAPKEE_METHOD.NEIGHBORHOOD_PRESERVING_EMBEDDING,
   TAPKEE_METHOD.KERNEL_LOCAL_TANGENT_SPACE_ALIGNMENT,
   TAPKEE_METHOD.LINEAR_LOCAL_TANGENT_SPACE_ALIGNMENT,
   TAPKEE_METHOD.HESSIAN_LOCALLY_LINEAR_EMBEDDING,
   TAPKEE_METHOD.LAPLACIAN_EIGENMAPS,
   TAPKEE_METHOD.LOCALITY_PRESERVING_PROJECTIONS,
   TAPKEE_METHOD.DIFFUSION_MAP,
   TAPKEE_METHOD.ISOMAP,
   TAPKEE_METHOD.LANDMARK_ISOMAP,
   TAPKEE_METHOD.MULTIDIMENSIONAL_SCALING,
   TAPKEE_METHOD.LANDMARK_MULTIDIMENSIONAL_SCALING,
   TAPKEE_METHOD.STOCHASTIC_PROXIMITY_EMBEDDING,
   TAPKEE_METHOD.KERNEL_PCA,
   TAPKEE_METHOD.PCA,
   TAPKEE_METHOD.UNKNOWN_METHOD]

/-- Members of enum TAPKEE_NEIGHBORS_METHOD in source order. -/
def neighborsMethodMembers : List TAPKEE_NEIGHBORS_METHOD :=
  [TAPKEE_NEIGHBORS_METHOD.BRUTE_FORCE,
   TAPKEE_NEIGHBORS_METHOD.COVER_TREE,
   TAPKEE_NEIGHBORS_METHOD.UNKNOWN_NEIGHBORS_METHOD]

/-- Members of enum TAPKEE_EIGEN_EMBEDDING_METHOD in source order. -/
def eigenMethodMembers : List TAPKEE_EIGEN_EMBEDDING_METHOD :=
  [TAPKEE_EIGEN_EMBEDDING_METHOD.ARPACK,
   TAPKEE_EIGEN_EMBEDDING_METHOD.RANDOMIZED,
   TAPKEE_EIGEN_EMBEDDING_METHOD.EIGEN_DENSE_SELFADJOINT_SOLVER,
   TAPKEE_EIGEN_EMBEDDING_METHOD.UNKNOWN_EIGEN_METHOD]

/-- Base factor COVERTREE_BASE of tapkee_defines.hpp: a custom-properties
definition overrides it, and 1.3 is the default otherwise. -/
def COVERTREE_BASE (customProperties : Option DefaultScalarType) : DefaultScalarType :=
  match customProperties with
  | some base => base
  | none => 1.3

/-- Modelled from the spec: the cover-tree covering-ball radius at a level,
shrinking by the fixed base factor per level downward; the tree construction
itself is outside the visible source fragment. -/
def covertreeRadius (base : DefaultScalarType) (level : Nat) : DefaultScalarType :=
  base ^ level

/-- Modelled from the spec: the error taxonomy of the error-handling section;
the error types are outside the visible source fragment. -/
inductive TapkeeError
  | MissingParameterError
  | TypeMismatchError
  | InsufficientDataError
  | UnsupportedProblemError
  | ConvergenceError
  | DegenerateSpectrumError
  deriving DecidableEq, Repr

/-- Modelled from the spec: a symmetric eigenproblem handed to a solver
backend, abstracted by the full spectrum of its operator A; a generalized
problem A v = lambda B v additionally carries the spectrum of the second
operator B, a standard problem carries none. -/
structure Eigenproblem where
  spectrum : List DefaultScalarType
  B : Option (List DefaultScalarType)
  deriving DecidableEq, Repr

/-- Generalized means a non-trivial second operator B is present. -/
def Eigenproblem.isGeneralized (p : Eigenproblem) : Bool :=
  p.B.isSome

/-- Order in which a reduction method wants its eigenvalues. -/
inductive EigendecompositionOrder
  | ascending
  | descending
  deriving DecidableEq, Repr

/-- Comparison relation realizing an eigenvalue order. -/
def EigendecompositionOrder.rel :
    EigendecompositionOrder → DefaultScalarType → DefaultScalarType → Prop
  | .ascending => (· ≤ ·)
  | .descending => (· ≥ ·)

instance (order : EigendecompositionOrder) : DecidableRel order.rel :=
  match order with
  | .ascending => fun a b => inferInstanceAs (Decidable (a ≤ b))
  | .descending => fun a b => inferInstanceAs (Decidable (a ≥ b))

instance (order : EigendecompositionOrder) : IsTotal DefaultScalarType order.rel :=
  match order with
  | .ascending => inferInstanceAs (IsTotal ℚ (· ≤ ·))
  | .descending => inferInstanceAs (IsTotal ℚ (· ≥ ·))

instance (order : EigendecompositionOrder) : IsTrans DefaultScalarType order.rel :=
  match order with
  | .ascending => inferInstanceAs (IsTrans ℚ (· ≤ ·))
  | .descending => inferInstanceAs (IsTrans ℚ (· ≥ ·))

/-- Modelled from the spec: the EIGEN_DENSE_SELFADJOINT_SOLVER backend
(DefaultDenseSelfAdjointEigenSolver) computes the full spectrum of the
densified operator and then selects the targetDimension eigenpairs in the
selected method's stated order; its implementation is outside the visible
source fragment. -/
def denseSelfAdjointSolve (p : Eigenproblem) (order : EigendecompositionOrder)
    (targetDimension : Nat) : List DefaultScalarType :=
  (List.insertionSort order.rel p.spectrum).take targetDimension

/-- Modelled from the spec: the RANDOMIZED backend (randomized range-finding,
redsvd) supports only standard eigenproblems and fails with
UnsupportedProblemError on a generalized one; on a standard problem it returns
the targetDimension extremal eigenvalues; its implementation is outside the
visible source fragment. -/
def randomizedSolve (p : Eigenproblem) (targetDimension : Nat) :
    Except TapkeeError (List DefaultScalarType) :=
  match p.B with
  | some _ => Except.error TapkeeError.UnsupportedProblemError
  | none =>
      Except.ok (denseSelfAdjointSolve p EigendecompositionOrder.descending targetDimension)

/-- Modelled from the spec: one run of the ARPACK backend's Krylov iteration
loop, driven by an abstract convergence oracle giving the eigenvalues found at
each iteration once converged; the fuel argument bounds the number of
iterations still allowed, and exhausting it fails with ConvergenceError; the
implementation is outside the visible source fragment. -/
def arpackIterate (converge : Nat → Option (List DefaultScalarType)) (i : Nat) :
    Nat → Except TapkeeError (List DefaultScalarType)
  | 0 => Except.error TapkeeError.ConvergenceError
  | Nat.succ fuel =>
      match converge i with
      | some found => Except.ok found
      | none => arpackIterate converge (i + 1) fuel

/-- Modelled from the spec: the ARPACK backend solves a standard or generalized
symmetric problem iteratively, within at most maxIteration iterations. -/
def arpackSolve (p : Eigenproblem)
    (converge : Eigenproblem → Nat → Option (List DefaultScalarType))
    (maxIteration : Nat) : Except TapkeeError (List DefaultScalarType) :=
  arpackIterate (converge p) 0 maxIteration

/-- Struct ProjectingImplementation of tapkee_defines.hpp: a polymorphic
capability with the single virtual operation project from one dense vector to
one dense vector.  The C++ signature of project is a non-const member function,
so the model lets it read and rewrite an internal state of type σ; the spec
asserts the concrete implementations (outside the visible fragment) never do. -/
structure ProjectingImplementation (σ : Type) where
  state : σ
  project : σ → DenseVector → DenseVector × σ

/-- Struct ProjectingFunction of tapkee_defines.hpp: a thin wrapper holding a
raw pointer to a ProjectingImplementation; a null pointer is modelled as
none. -/
structure ProjectingFunction (σ : Type) where
  implementation : Option (ProjectingImplementation σ)

/-- Call operator of ProjectingFunction: dereferences the implementation
pointer unconditionally and returns implementation->project(vec); dereferencing
a null pointer is undefined behavior in the source, modelled as none.  The
result carries the wrapper after the call, whose implementation holds whatever
state project left behind. -/
def ProjectingFunction.call {σ : Type} (f : ProjectingFunction σ) (vec : DenseVector) :
    Option (DenseVector × ProjectingFunction σ) :=
  match f.implementation with
  | none => none
  | some impl =>
      match impl.project impl.state vec with
      | (result, newState) =>
          some (result, ProjectingFunction.mk (some ⟨newState, impl.project⟩))

/-- Two successive invocations of a ProjectingFunction on the same input,
returning both outputs when both dereferences succeed. -/
def ProjectingFunction.callTwice {σ : Type} (f : ProjectingFunction σ)
    (vec : DenseVector) : Option (DenseVector × DenseVector) :=
  match f.call vec with
  | none => none
  | some (first, f1) =>
      match f1.call vec with
      | none => none
      | some (second, _) => some (first, second)

/-- Identity projecting implementation with no internal state, used as a
concrete instance of the projection contract. -/
def idProjImpl : ProjectingImplementation Unit :=
  ⟨(), fun s v => (v, s)⟩

/-- C1 counterexample: the CURRENT_DIMENSION key of enum TAPKEE_PARAMETERS is
not one of the options the spec lists for the ParametersMap, so not every key
of the enumeration is a listed option. -/
theorem current_dimension_not_spec_listed :
    ¬ ∃ o : SpecOptionKey,
        specOptionKeyToParameter o = TAPKEE_PARAMETERS.CURRENT_DIMENSION := by
  decide

/-- C1 (amended): every key of enum TAPKEE_PARAMETERS is one of the options
the spec lists except CURRENT_DIMENSION, and each listed option corresponds to
its own distinct key. -/
theorem parameters_enumeration_coverage :
    (∀ k : TAPKEE_PARAMETERS,
        (∃ o : SpecOptionKey, specOptionKeyToParameter o = k) ∨
          k = TAPKEE_PARAMETERS.CURRENT_DIMENSION) ∧
    (∀ o₁ o₂ : SpecOptionKey,
        specOptionKeyToParameter o₁ = specOptionKeyToParameter o₂ ↔ o₁ = o₂) := by
  decide

/-- C2 counterexample: the NEIGHBORHOOD_PRESERVING_EMBEDDING member of enum
TAPKEE_METHOD corresponds to none of the algorithms the spec lists, so not
every member corresponds to a listed algorithm. -/
theorem npe_not_spec_listed :
    ¬ ∃ a : SpecAlgorithm,
        specAlgorithmToMethod a = TAPKEE_METHOD.NEIGHBORHOOD_PRESERVING_EMBEDDING := by
  decide

/-- C2 (amended): every algorithm the spec lists has its own distinct member
of enum TAPKEE_METHOD, and every member is either a listed algorithm or one of
NEIGHBORHOOD_PRESERVING_EMBEDDING, LINEAR_LOCAL_TANGENT_SPACE_ALIGNMENT and
the UNKNOWN_METHOD sentinel. -/
theorem method_enumeration_coverage :
    (∀ m : TAPKEE_METHOD,
        (∃ a : SpecAlgorithm, specAlgorithmToMethod a = m) ∨
          m = TAPKEE_METHOD.NEIGHBORHOOD_PRESERVING_EMBEDDING ∨
          m = TAPKEE_METHOD.LINEAR_LOCAL_TANGENT_SPACE_ALIGNMENT ∨
          m = TAPKEE_METHOD.UNKNOWN_METHOD) ∧
    (∀ a₁ a₂ : SpecAlgorithm,
        specAlgorithmToMethod a₁ = specAlgorithmToMethod a₂ ↔ a₁ = a₂) := by
  decide

/-- C9: each of the three enumerations has pairwise distinct members, its
member list is complete, and its last member is the dedicated UNKNOWN
sentinel — hence the sentinel is distinct from every real selection and an
unrecognized choice is representable inside the enumeration. -/
theorem unknown_sentinels_distinct :
    (reductionMethodMembers.Nodup ∧
      (∀ m : TAPKEE_METHOD, m ∈ reductionMethodMembers) ∧
      reductionMethodMembers.getLast? = some TAPKEE_METHOD.UNKNOWN_METHOD) ∧
    (neighborsMethodMembers.Nodup ∧
      (∀ m : TAPKEE_NEIGHBORS_METHOD, m ∈ neighborsMethodMembers) ∧
      neighborsMethodMembers.getLast? =
        some TAPKEE_NEIGHBORS_METHOD.UNKNOWN_NEIGHBORS_METHOD) ∧
    (eigenMethodMembers.Nodup ∧
      (∀ m : TAPKEE_EIGEN_EMBEDDING_METHOD, m ∈ eigenMethodMembers) ∧
      eigenMethodMembers.getLast? =
        some TAPKEE_EIGEN_EMBEDDING_METHOD.UNKNOWN_EIGEN_METHOD) := by
  decide

/-- C3: the cover-tree base factor defaults to exactly 13/10 when no
custom-properties override is given, any custom-properties override replaces
it, and the covering-ball radius shrinks per level by exactly that base
factor. -/
theorem covertree_base_default :
    COVERTREE_BASE none = 13 / 10 ∧
    (∀ base : DefaultScalarType, COVERTREE_BASE (some base) = base) ∧
    (∀ base : DefaultScalarType, ∀ level : Nat,
        covertreeRadius base (level + 1) = base * covertreeRadius base level) := by
  refine ⟨by norm_num [COVERTREE_BASE], fun base => rfl, fun base level => ?_⟩
  simp [covertreeRadius, pow_succ, mul_comm]

/-- C4: the RANDOMIZED backend fails with UnsupportedProblemError exactly on
generalized eigenproblems, and returns eigenpairs exactly on standard ones. -/
theorem randomized_standard_only (p : Eigenproblem) (targetDimension : Nat) :
    (randomizedSolve p targetDimension =
        Except.error TapkeeError.UnsupportedProblemError ↔ p.isGeneralized = true) ∧
    ((∃ found, randomizedSolve p targetDimension = Except.ok found) ↔
        p.isGeneralized = false) := by
  cases hB : p.B <;> simp [randomizedSolve, Eigenproblem.isGeneralized, hB]

/-- Progress lemma for the ARPACK iteration loop: with any amount of fuel the
loop either returns a result its oracle produced at an in-budget iteration, or
exhausts the fuel with ConvergenceError. -/
theorem arpackIterate_spec (converge : Nat → Option (List DefaultScalarType)) :
    ∀ (fuel i : Nat),
      (∃ found j, arpackIterate converge i fuel = Except.ok found ∧
          i ≤ j ∧ j < i + fuel ∧ converge j = some found) ∨
        arpackIterate converge i fuel = Except.error TapkeeError.ConvergenceError
  | 0, _ => Or.inr rfl
  | Nat.succ fuel, i => by
      cases hc : converge i with
      | some found =>
          exact Or.inl ⟨found, i, by simp [arpackIterate, hc], le_refl i, by omega, hc⟩
      | none =>
          rcases arpackIterate_spec converge fuel (i + 1) with
            ⟨found, j, hok, hij, hj, hcj⟩ | herr
          · exact Or.inl ⟨found, j, by simp [arpackIterate, hc, hok],
              by omega, by omega, hcj⟩
          · exact Or.inr (by simp [arpackIterate, hc, herr])

/-- C5: on any eigenproblem, standard or generalized, the ARPACK backend
either returns eigenpairs its convergence oracle produced at an iteration
strictly below the iteration budget, or fails with ConvergenceError — it never
runs past the budget and never returns a result after exceeding it. -/
theorem arpack_bounded_or_convergence_error (p : Eigenproblem)
    (converge : Eigenproblem → Nat → Option (List DefaultScalarType))
    (maxIteration : Nat) :
    (∃ found iteration,
        arpackSolve p converge maxIteration = Except.ok found ∧
        iteration < maxIteration ∧ converge p iteration = some found) ∨
      arpackSolve p converge maxIteration =
        Except.error TapkeeError.ConvergenceError := by
  rcases arpackIterate_spec (converge p) maxIteration 0 with
    ⟨found, j, hok, _, hj, hcj⟩ | herr
  · exact Or.inl ⟨found, j, hok, by omega, hcj⟩
  · exact Or.inr herr

/-- C6: the dense self-adjoint backend returns exactly targetDimension
eigenvalues whenever the spectrum is large enough, they are sorted in the
requested method order, and each of them belongs to the full spectrum of the
operator. -/
theorem dense_solver_selects_target_dimension (p : Eigenproblem)
    (order : EigendecompositionOrder) (targetDimension : Nat)
    (h : targetDimension ≤ p.spectrum.length) :
    (denseSelfAdjointSolve p order targetDimension).length = targetDimension ∧
    List.Sorted order.rel (denseSelfAdjointSolve p order targetDimension) ∧
    ∀ x ∈ denseSelfAdjointSolve p order targetDimension, x ∈ p.spectrum := by
  refine ⟨?_, ?_, ?_⟩
  · rw [denseSelfAdjointSolve, List.length_take, List.length_insertionSort]
    exact Nat.min_eq_left h
  · exact (List.sorted_insertionSort order.rel p.spectrum).sublist
      (List.take_sublist _ _)
  · intro x hx
    exact (List.mem_insertionSort (r := order.rel)).mp (List.take_subset _ _ hx)

/-- Witness for C6 at the concrete spectrum [3, 1, 2], ascending order and
target dimension 2. -/
theorem dense_solver_selects_target_dimension_witness :
    (denseSelfAdjointSolve ⟨[3, 1, 2], none⟩
        EigendecompositionOrder.ascending 2).length = 2 ∧
    List.Sorted EigendecompositionOrder.ascending.rel
      (denseSelfAdjointSolve ⟨[3, 1, 2], none⟩ EigendecompositionOrder.ascending 2) ∧
    ∀ x ∈ denseSelfAdjointSolve ⟨[3, 1, 2], none⟩ EigendecompositionOrder.ascending 2,
      x ∈ (Eigenproblem.mk [3, 1, 2] none).spectrum :=
  dense_solver_selects_target_dimension ⟨[3, 1, 2], none⟩
    EigendecompositionOrder.ascending 2 (by decide)

/-- C7: a ProjectingFunction whose implementation pointer holds a stateless
project operation (as the spec asserts of every concrete implementation)
returns its wrapper unchanged, and two successive invocations on the same
input return bit-identical outputs. -/
theorem projecting_function_idempotent {σ : Type} (f : ProjectingFunction σ)
    (impl : ProjectingImplementation σ) (hImpl : f.implementation = some impl)
    (hStateless : ∀ s v, (impl.project s v).2 = s) (vec : DenseVector) :
    f.call vec = some ((impl.project impl.state vec).1, f) ∧
    f.callTwice vec =
      some ((impl.project impl.state vec).1, (impl.project impl.state vec).1) := by
  obtain ⟨fi⟩ := f
  simp only [ProjectingFunction.implementation] at hImpl
  subst hImpl
  have hst := hStateless impl.state vec
  cases hp : impl.project impl.state vec with
  | mk result newState =>
      rw [hp] at hst
      have hst2 : newState = impl.state := hst
      subst hst2
      simp [ProjectingFunction.call, ProjectingFunction.callTwice, hp]

/-- Witness for C7 at the identity implementation and the input [1, 2]. -/
theorem projecting_function_idempotent_witness :
    (ProjectingFunction.mk (some idProjImpl)).call [1, 2] =
      some ((idProjImpl.project idProjImpl.state [1, 2]).1,
        ProjectingFunction.mk (some idProjImpl)) ∧
    (ProjectingFunction.mk (some idProjImpl)).callTwice [1, 2] =
      some ((idProjImpl.project idProjImpl.state [1, 2]).1,
        (idProjImpl.project idProjImpl.state [1, 2]).1) :=
  projecting_function_idempotent (ProjectingFunction.mk (some idProjImpl))
    idProjImpl rfl (fun _ _ => rfl) [1, 2]

/-- C10: the call operator of ProjectingFunction produces a result exactly
when the stored implementation pointer is non-null; in particular a
ProjectingFunction constructed from a null pointer yields no result on any
input, since the operator dereferences the pointer with no guard. -/
theorem null_implementation_never_invocable :
    (∀ (σ : Type) (vec : DenseVector),
        (ProjectingFunction.mk (none : Option (ProjectingImplementation σ))).call vec
          = none) ∧
    ∀ (σ : Type) (f : ProjectingFunction σ) (vec : DenseVector),
      (f.call vec).isSome = f.implementation.isSome := by
  constructor
  · intro σ vec
    rfl
  · intro σ f vec
    obtain ⟨fi⟩ := f
    cases fi with
    | none => rfl
    | some impl =>
        simp only [ProjectingFunction.call]
        cases impl.project impl.state vec
        rfl

end Tapkee
